import Mathlib

/-!
# Verification of the document-verification core

Shallow embedding of the repository's MRZ decoder (`src/unnamed/part_001`,
the `mrz-parser` module), the validation / eligibility / recommendation
engine (`src/unnamed/part_002`), and the field-merge step of
`src/lib/document-analyzer.ts`, together with theorems settling the
frozen claims about them.

Modelling conventions:
* JavaScript strings are Lean `String`s; all character-level operations
  (substring, split, trim, fill-stripping) are defined below over
  `List Char` to mirror the JS string methods used by the source.
* JavaScript numbers are `Int` (confidences, month/year differences) or
  `Nat` (indices, calendar components); the name-similarity score, a JS
  float in `[0,1]`, is modelled as `Rat` (all values produced are exact
  small rationals, so no floating-point rounding is observable at the
  comparisons the code performs).
* `NaN` values arising from `parseInt` failures and from date-fns
  operations on invalid dates are modelled as `none` of an `Option`,
  with every JS comparison against `NaN` returning `false`, exactly as
  in JS.
* date-fns `parseISO` returns an *invalid date* (not an exception) when
  the input does not parse; `isBefore`, `differenceInMonths` and
  `differenceInYears` then yield `false` / `NaN`.  Consequently the
  `try { ... } catch { ... }` blocks of `part_002` never execute their
  `catch` arms: nothing in the `try` bodies throws.  The embedding
  therefore translates the `try` bodies; the `catch` arms are dead code
  (this fact is exactly what claims C4 and C9 turn on).
* `new Date()` (the current instant) is passed explicitly as a `now`
  parameter of type `CalDate`; time-of-day is abstracted away (the
  pipeline only compares calendar dates).
-/

/-! ## JS string and number primitives -/

/-- JS `parseInt` restricted to the shapes the source feeds it: the
longest leading run of decimal digits, `none` when there is none
(JS `NaN`). -/
def jsParseIntNat (s : String) : Option Nat :=
  let ds := s.toList.takeWhile Char.isDigit
  if ds = [] then none
  else some (ds.foldl (fun a c => a * 10 + (c.toNat - 48)) 0)

/-- JS `s.substring(a, b)` (for `a ≤ b`, the only way the source calls it). -/
def jsSubstring (s : String) (a b : Nat) : String :=
  String.mk ((s.toList.drop a).take (b - a))

/-- JS `s.substring(a)`. -/
def jsSubstringFrom (s : String) (a : Nat) : String :=
  String.mk (s.toList.drop a)

/-- JS `s.replace(/<+$/, '')`: strip trailing `<` fill characters. -/
def stripTrailingChevrons (s : String) : String :=
  String.mk ((s.toList.reverse.dropWhile (fun c => c = '<')).reverse)

/-- JS `s.replace(/</g, ' ')`. -/
def chevronsToSpaces (s : String) : String :=
  String.mk (s.toList.map (fun c => if c = '<' then ' ' else c))

/-- Whitespace as trimmed by JS `String.prototype.trim` (ASCII subset). -/
def isJsSpace (c : Char) : Bool := c.isWhitespace

/-- JS `s.trim()`. -/
def jsTrim (s : String) : String :=
  String.mk (((s.toList.dropWhile isJsSpace).reverse.dropWhile isJsSpace).reverse)

/-- Fuel-based worker for `jsSplit`; the fuel is an upper bound on the
number of characters still to be scanned, so it never runs out on the
initial call. -/
def jsSplitAux (sep : List Char) : Nat → List Char → List Char → List (List Char)
  | 0, rest, acc => [acc.reverse ++ rest]
  | _ + 1, [], acc => [acc.reverse]
  | fuel + 1, c :: rest, acc =>
    if sep.isPrefixOf (c :: rest) then
      acc.reverse :: jsSplitAux sep fuel ((c :: rest).drop sep.length) []
    else
      jsSplitAux sep fuel rest (c :: acc)

/-- JS `s.split(sep)` for a non-empty separator: split at every
non-overlapping occurrence, scanning left to right, keeping empty
segments (including a trailing one). -/
def jsSplit (s sep : String) : List String :=
  if sep.toList = [] then [s]
  else (jsSplitAux sep.toList (s.toList.length + 1) s.toList []).map String.mk

/-- `sub` occurs contiguously inside `l` (JS `String.prototype.includes`). -/
def containsSub (l sub : List Char) : Bool :=
  (List.range (l.length + 1)).any (fun i => sub.isPrefixOf (l.drop i))

/-- JS `a.includes(b)` on strings. -/
def jsIncludes (a b : String) : Bool := containsSub a.toList b.toList

/-- JS `Math.round` on the (exact, nonnegative) rationals the source
produces: round half up. -/
def jsRound (q : Rat) : Int := ⌊q + 1/2⌋

/-! ## Data model (`src/unnamed/part_000`, the `types/document` module) -/

structure ExtractedField where
  value : String
  confidence : Int
deriving DecidableEq, Repr

structure MRZData where
  documentType : ExtractedField
  issuingCountry : ExtractedField
  lastName : ExtractedField
  firstName : ExtractedField
  documentNumber : ExtractedField
  nationality : ExtractedField
  dateOfBirth : ExtractedField
  sex : ExtractedField
  expiryDate : ExtractedField
  personalNumber : ExtractedField
  checksumValid : Bool
deriving DecidableEq, Repr

structure ExtractedDocument where
  documentType : ExtractedField
  documentNumber : ExtractedField
  issuingCountry : ExtractedField
  firstName : ExtractedField
  lastName : ExtractedField
  dateOfBirth : ExtractedField
  nationality : ExtractedField
  sex : ExtractedField
  issueDate : ExtractedField
  expiryDate : ExtractedField
  placeOfBirth : Option ExtractedField
  mrzData : Option MRZData
deriving DecidableEq, Repr

inductive CheckStatus where
  | pass
  | fail
  | warning
deriving DecidableEq, Repr

structure ValidationCheck where
  field : String
  status : CheckStatus
  message : String
  confidence : Int
deriving DecidableEq, Repr

structure ApplicantData where
  name : String
  dateOfBirth : String
  passportNumber : String
  nationality : String
  visaType : String
deriving DecidableEq, Repr

structure EligibilityPolicy where
  minPassportValidity : Int
  allowedNationalities : Option (List String)
  blockedNationalities : Option (List String)
  minAge : Option Int
  maxAge : Option Int
  requireBiometric : Option Bool
deriving DecidableEq, Repr

structure EligibilityResult where
  eligible : Bool
  reason : String
  confidence : Int
deriving DecidableEq, Repr

/-! ## MRZ parser (`src/unnamed/part_001`) -/

/-- `calculateCheckDigit` (part_001 lines 3-20): `<` is worth 0, a digit
its numeric value, any other character its char code minus 55; weights
cycle `[7,3,1]`; result is the sum modulo 10 (JS `%`, i.e. truncated
remainder, though all MRZ-legal inputs give a nonnegative sum). -/
def calculateCheckDigit (input : String) : Int :=
  let weights : List Int := [7, 3, 1]
  let vals := input.toList.enum.map (fun p =>
    (if p.2 = '<' then 0
     else if p.2.isDigit then ((p.2.toNat : Int) - 48)
     else ((p.2.toNat : Int) - 55)) * (weights.getD (p.1 % 3) 0))
  Int.tmod vals.sum 10

/-- `validateCheckDigit` (part_001 lines 22-25).  `parseInt` of a
non-numeric check-digit character is `NaN`, and `NaN === n` is false. -/
def validateCheckDigit (data checkDigit : String) : Bool :=
  match jsParseIntNat checkDigit with
  | none => false
  | some n => calculateCheckDigit data = (n : Int)

/-- `parseDate` (part_001 lines 27-39).  A non-6-character input yields
`""`.  If the two leading characters are not digits, JS computes
`1900 + NaN = NaN` and the template string renders `"NaN-MM-DD"`. -/
def parseDate (dateStr : String) : String :=
  if dateStr.length ≠ 6 then ""
  else
    let month := jsSubstring dateStr 2 4
    let day := jsSubstring dateStr 4 6
    let fullYearStr :=
      match jsParseIntNat (jsSubstring dateStr 0 2) with
      | none => "NaN"
      | some year => toString (if year ≤ 40 then 2000 + year else 1900 + year)
    fullYearStr ++ "-" ++ month ++ "-" ++ day

/-- `parseTD3` (part_001 lines 60-99). -/
def parseTD3 (line1 line2 : String) : MRZData :=
  let documentType := stripTrailingChevrons (jsSubstring line1 0 2)
  let issuingCountry := stripTrailingChevrons (jsSubstring line1 2 5)
  let namePart := jsSplit (jsSubstringFrom line1 5) "<<"
  let lastName := jsTrim (chevronsToSpaces (namePart.headD ""))
  -- `namePart[1]?.replace(/</g,' ').trim() || ''`: a missing element and an
  -- empty trimmed string both collapse to `''`.
  let firstName := ((namePart.get? 1).map (fun s => jsTrim (chevronsToSpaces s))).getD ""
  let documentNumber := stripTrailingChevrons (jsSubstring line2 0 9)
  let documentNumberCheck := jsSubstring line2 9 10
  let nationality := stripTrailingChevrons (jsSubstring line2 10 13)
  let dob := jsSubstring line2 13 19
  let dobCheck := jsSubstring line2 19 20
  let sex := jsSubstring line2 20 21
  let expiry := jsSubstring line2 21 27
  let expiryCheck := jsSubstring line2 27 28
  let personalNumber := stripTrailingChevrons (jsSubstring line2 28 42)
  let checksumValid :=
    validateCheckDigit documentNumber documentNumberCheck &&
    validateCheckDigit dob dobCheck &&
    validateCheckDigit expiry expiryCheck
  let confidence : Int := if checksumValid then 95 else 70
  { documentType := { value := documentType, confidence := confidence }
    issuingCountry := { value := issuingCountry, confidence := confidence }
    lastName := { value := lastName, confidence := confidence }
    firstName := { value := firstName, confidence := confidence }
    documentNumber := { value := documentNumber, confidence := confidence }
    nationality := { value := nationality, confidence := confidence }
    dateOfBirth := { value := parseDate dob, confidence := confidence }
    sex := { value := sex, confidence := confidence }
    expiryDate := { value := parseDate expiry, confidence := confidence }
    -- `personalNumber ? confidence : 0`: an empty string is falsy.
    personalNumber := { value := personalNumber,
                        confidence := if personalNumber ≠ "" then confidence else 0 }
    checksumValid := checksumValid }

/-- `parseTD1` (part_001 lines 101-138). -/
def parseTD1 (line1 line2 line3 : String) : MRZData :=
  let documentType := stripTrailingChevrons (jsSubstring line1 0 2)
  let issuingCountry := stripTrailingChevrons (jsSubstring line1 2 5)
  let documentNumber := stripTrailingChevrons (jsSubstring line1 5 14)
  let documentNumberCheck := jsSubstring line1 14 15
  let dob := jsSubstring line2 0 6
  let dobCheck := jsSubstring line2 6 7
  let sex := jsSubstring line2 7 8
  let expiry := jsSubstring line2 8 14
  let expiryCheck := jsSubstring line2 14 15
  let nationality := stripTrailingChevrons (jsSubstring line2 15 18)
  let namePart := jsSplit line3 "<<"
  let lastName := jsTrim (chevronsToSpaces (namePart.headD ""))
  let firstName := ((namePart.get? 1).map (fun s => jsTrim (chevronsToSpaces s))).getD ""
  let checksumValid :=
    validateCheckDigit documentNumber documentNumberCheck &&
    validateCheckDigit dob dobCheck &&
    validateCheckDigit expiry expiryCheck
  let confidence : Int := if checksumValid then 95 else 70
  { documentType := { value := documentType, confidence := confidence }
    issuingCountry := { value := issuingCountry, confidence := confidence }
    lastName := { value := lastName, confidence := confidence }
    firstName := { value := firstName, confidence := confidence }
    documentNumber := { value := documentNumber, confidence := confidence }
    nationality := { value := nationality, confidence := confidence }
    dateOfBirth := { value := parseDate dob, confidence := confidence }
    sex := { value := sex, confidence := confidence }
    expiryDate := { value := parseDate expiry, confidence := confidence }
    personalNumber := { value := "", confidence := 0 }
    checksumValid := checksumValid }

/-- `parseMRZ` (part_001 lines 41-58).  Note the TD3 branch tests only the
lengths of the first two lines, never that the input has exactly two. -/
def parseMRZ (mrzLines : List String) : Option MRZData :=
  if mrzLines.length < 2 then none
  else
    let line1 := mrzLines.headD ""
    let line2 := (mrzLines.get? 1).getD ""
    if line1.length = 44 ∧ line2.length = 44 then
      some (parseTD3 line1 line2)
    else if mrzLines.length = 3 ∧ line1.length = 30 then
      some (parseTD1 line1 line2 ((mrzLines.get? 2).getD ""))
    else
      none

/-- `extractFieldFromText` (part_001 lines 140-148).  A regex pattern is
abstracted as the function taking the text to its first capture group
(`text.match(pattern)?.[1]`), since the regex engine itself is outside
the embedded core.  The JS guard `match && match[1]` skips a pattern
whose capture is missing or empty. -/
def extractFieldFromText (text : String) (patterns : List (String → Option String)) :
    ExtractedField :=
  match patterns with
  | [] => { value := "", confidence := 0 }
  | p :: rest =>
    match p text with
    | some g =>
      if g ≠ "" then { value := jsTrim g, confidence := 75 }
      else extractFieldFromText text rest
    | none => extractFieldFromText text rest

/-- All ten `ExtractedField` components of a decoded MRZ record, in
declaration order. -/
def MRZData.fieldsList (m : MRZData) : List ExtractedField :=
  [m.documentType, m.issuingCountry, m.lastName, m.firstName, m.documentNumber,
   m.nationality, m.dateOfBirth, m.sex, m.expiryDate, m.personalNumber]

/-! ## Calendar dates and the date-fns collaborator

The validator imports `parseISO`, `isBefore`, `differenceInMonths` and
`differenceInYears` from `date-fns`.  `parseISO` of an unparseable
string returns an *invalid date* (it does not throw); comparisons and
differences against an invalid date are `false` / `NaN`.  Valid dates
are modelled as calendar triples (time-of-day abstracted), invalid
dates as `none`. -/

structure CalDate where
  year : Nat
  month : Nat
  day : Nat
deriving DecidableEq, Repr

/-- Strict calendar order (date-fns `isBefore` on valid dates). -/
def CalDate.lt (a b : CalDate) : Bool :=
  a.year < b.year ∨ (a.year = b.year ∧
    (a.month < b.month ∨ (a.month = b.month ∧ a.day < b.day)))

def isLeapYear (y : Nat) : Bool :=
  (y % 4 = 0 && y % 100 ≠ 0) || y % 400 = 0

def daysInMonth (y m : Nat) : Nat :=
  if m = 2 then (if isLeapYear y then 29 else 28)
  else if m = 4 ∨ m = 6 ∨ m = 9 ∨ m = 11 then 30
  else 31

/-- date-fns `parseISO`, restricted to the extended-format calendar-date
shape `YYYY-MM-DD` this pipeline produces; every other input (including
the `"NaN-MM-DD"` and out-of-range dates that `parseDate` can emit, and
the `DD/MM/YYYY` raw strings of claim C4) is an invalid date, `none`. -/
def parseISO (s : String) : Option CalDate :=
  match s.toList with
  | [y1, y2, y3, y4, '-', m1, m2, '-', d1, d2] =>
    if y1.isDigit && y2.isDigit && y3.isDigit && y4.isDigit &&
       m1.isDigit && m2.isDigit && d1.isDigit && d2.isDigit then
      let y := (((y1.toNat - 48) * 10 + (y2.toNat - 48)) * 10 + (y3.toNat - 48)) * 10
               + (y4.toNat - 48)
      let m := (m1.toNat - 48) * 10 + (m2.toNat - 48)
      let d := (d1.toNat - 48) * 10 + (d2.toNat - 48)
      if 1 ≤ m ∧ m ≤ 12 ∧ 1 ≤ d ∧ d ≤ daysInMonth y m then
        some ⟨y, m, d⟩
      else none
    else none
  | _ => none

/-- date-fns `isBefore(a, b)` where `a` may be invalid: any comparison
involving an invalid date (`NaN` timestamp) is false. -/
def jsIsBefore (a : Option CalDate) (b : CalDate) : Bool :=
  match a with
  | none => false
  | some d => CalDate.lt d b

/-- Calendar-month difference `a - b` (date-fns `differenceInCalendarMonths`). -/
def diffCalendarMonths (a b : CalDate) : Int :=
  12 * ((a.year : Int) - b.year) + ((a.month : Int) - b.month)

/-- Full months from `b` up to `a`, for `b ≤ a`: the calendar-month
difference, minus one when the last month is not complete. -/
def diffFullMonthsNN (a b : CalDate) : Int :=
  if a.day < b.day then diffCalendarMonths a b - 1 else diffCalendarMonths a b

/-- Signed full-month difference `a - b`, truncated toward zero
(date-fns `differenceInMonths` on valid dates). -/
def diffFullMonths (a b : CalDate) : Int :=
  if CalDate.lt a b then -(diffFullMonthsNN b a) else diffFullMonthsNN a b

/-- date-fns `differenceInMonths(a, b)` where `a` may be invalid:
an invalid operand gives `NaN`, modelled `none`. -/
def differenceInMonths (a : Option CalDate) (b : CalDate) : Option Int :=
  a.map (fun d => diffFullMonths d b)

/-- Full years from `b` up to `a`, for `b ≤ a`. -/
def diffFullYearsNN (a b : CalDate) : Int :=
  if a.month < b.month ∨ (a.month = b.month ∧ a.day < b.day) then
    (a.year : Int) - b.year - 1
  else
    (a.year : Int) - b.year

/-- Signed full-year difference `a - b`, truncated toward zero. -/
def diffFullYears (a b : CalDate) : Int :=
  if CalDate.lt a b then -(diffFullYearsNN b a) else diffFullYearsNN a b

/-- date-fns `differenceInYears(now, dob)` where `dob` may be invalid. -/
def differenceInYears (now : CalDate) (dob : Option CalDate) : Option Int :=
  dob.map (fun d => diffFullYears now d)

/-- JS `x < k` where `x` may be `NaN` (`none`): false then. -/
def jsLtNum (x : Option Int) (k : Int) : Bool :=
  match x with
  | none => false
  | some v => v < k

/-- JS `x > k` where `x` may be `NaN`. -/
def jsGtNum (x : Option Int) (k : Int) : Bool :=
  match x with
  | none => false
  | some v => k < v

/-- JS template rendering of a number that may be `NaN`. -/
def jsNumToString (x : Option Int) : String :=
  match x with
  | none => "NaN"
  | some v => toString v

/-! ## Validation engine (`src/unnamed/part_002`) -/

/-- The regex `^[A-Z0-9]{6,12}$` of the document-number check. -/
def matchesDocNumberPattern (s : String) : Bool :=
  let l := s.toList
  6 ≤ l.length && l.length ≤ 12 &&
    l.all (fun c => ('A' ≤ c && c ≤ 'Z') || ('0' ≤ c && c ≤ '9'))

/-- The regex `^[A-Z]{3}$` of the nationality check. -/
def matchesNationalityPattern (s : String) : Bool :=
  let l := s.toList
  l.length = 3 && l.all (fun c => 'A' ≤ c && c ≤ 'Z')

/-- `compareStrings` (part_002 lines 152-171): lowercase, strip
non-letters; equality scores 1, substring containment 0.9, otherwise the
positional-match count divided by the longer length. -/
def compareStrings (a b : String) : Rat :=
  let normalize : String → List Char := fun s =>
    (s.toList.map Char.toLower).filter (fun c => 'a' ≤ c && c ≤ 'z')
  let str1 := normalize a
  let str2 := normalize b
  if str1 = str2 then 1
  else
    let longer := if str2.length < str1.length then str1 else str2
    let shorter := if str2.length < str1.length then str2 else str1
    if containsSub longer shorter then 9/10
    else
      let matchCount := ((longer.zip shorter).countP (fun p => p.1 == p.2))
      (matchCount : Rat) / (longer.length : Rat)

/-- Document-number format check (part_002 lines 7-16). -/
def docNumberCheckBlock (doc : ExtractedDocument) : List ValidationCheck :=
  if doc.documentNumber.value ≠ "" then
    [{ field := "documentNumber",
       status := if matchesDocNumberPattern doc.documentNumber.value then .pass else .fail,
       message := if matchesDocNumberPattern doc.documentNumber.value then
           "Document number format valid" else "Invalid document number format",
       confidence := doc.documentNumber.confidence }]
  else []

/-- Expiry-date check (part_002 lines 18-49).  `parseISO` of an
unparseable value is an invalid date, `isBefore` on it is false (so the
status is `pass`), and `NaN < 6` is false (so no warning); the `catch`
arm of the source is unreachable because nothing in the `try` throws. -/
def expiryCheckBlock (now : CalDate) (doc : ExtractedDocument) : List ValidationCheck :=
  if doc.expiryDate.value ≠ "" then
    let expiry := parseISO doc.expiryDate.value
    let isExpired := jsIsBefore expiry now
    [{ field := "expiryDate",
       status := if isExpired then .fail else .pass,
       message := if isExpired then "Document has expired" else "Document is valid",
       confidence := doc.expiryDate.confidence }] ++
    (let monthsUntilExpiry := differenceInMonths expiry now
     if !isExpired && jsLtNum monthsUntilExpiry 6 then
       [{ field := "expiryDate",
          status := .warning,
          message := "Document expires in " ++ jsNumToString monthsUntilExpiry ++ " months",
          confidence := doc.expiryDate.confidence }]
     else [])
  else []

/-- Date-of-birth check (part_002 lines 51-81).  With an unparseable
date of birth the age is `NaN`, both range comparisons are false, and
the source emits a `pass` check whose message renders as
`"Age: NaN years"`; the `catch` arm is unreachable. -/
def dobCheckBlock (now : CalDate) (doc : ExtractedDocument) : List ValidationCheck :=
  if doc.dateOfBirth.value ≠ "" then
    let age := differenceInYears now (parseISO doc.dateOfBirth.value)
    if jsLtNum age 0 || jsGtNum age 120 then
      [{ field := "dateOfBirth", status := .fail,
         message := "Date of birth is invalid",
         confidence := doc.dateOfBirth.confidence }]
    else
      [{ field := "dateOfBirth", status := .pass,
         message := "Age: " ++ jsNumToString age ++ " years",
         confidence := doc.dateOfBirth.confidence }]
  else []

/-- Name check (part_002 lines 83-92). -/
def nameCheckBlock (doc : ExtractedDocument) : List ValidationCheck :=
  if doc.firstName.value ≠ "" ∧ doc.lastName.value ≠ "" then
    let hasValidNames :=
      1 < doc.firstName.value.length && 1 < doc.lastName.value.length
    [{ field := "name",
       status := if hasValidNames then .pass else .warning,
       message := if hasValidNames then "Name fields extracted"
                  else "Name fields may be incomplete",
       confidence := min doc.firstName.confidence doc.lastName.confidence }]
  else []

/-- Nationality check (part_002 lines 94-103). -/
def nationalityCheckBlock (doc : ExtractedDocument) : List ValidationCheck :=
  if doc.nationality.value ≠ "" then
    [{ field := "nationality",
       status := if matchesNationalityPattern doc.nationality.value then .pass else .warning,
       message := if matchesNationalityPattern doc.nationality.value then
           "Nationality code valid" else "Nationality code format unusual",
       confidence := doc.nationality.confidence }]
  else []

/-- `validateMRZConsistency` (part_002 lines 114-150). -/
def validateMRZConsistency (doc : ExtractedDocument) : List ValidationCheck :=
  match doc.mrzData with
  | none => []
  | some mrz =>
    [{ field := "mrzChecksum",
       status := if mrz.checksumValid then .pass else .fail,
       message := if mrz.checksumValid then "MRZ checksums valid" else "MRZ checksums failed",
       confidence := if mrz.checksumValid then 95 else 60 }] ++
    (if doc.documentNumber.value ≠ "" ∧ mrz.documentNumber.value ≠ "" then
       [{ field := "documentNumberMatch",
          status := if doc.documentNumber.value = mrz.documentNumber.value then .pass else .fail,
          message := if doc.documentNumber.value = mrz.documentNumber.value then
              "Document number matches MRZ" else "Document number does not match MRZ",
          confidence := 90 }]
     else []) ++
    (if doc.lastName.value ≠ "" ∧ mrz.lastName.value ≠ "" then
       let similarity := compareStrings doc.lastName.value mrz.lastName.value
       [{ field := "nameMatch",
          status := if 4/5 < similarity then .pass else .warning,
          message := if 4/5 < similarity then "Names match MRZ" else "Name mismatch with MRZ",
          confidence := jsRound (similarity * 100) }]
     else [])

/-- `validateDocument` (part_002 lines 4-112): the five per-field checks
in source order, then the MRZ-consistency block when MRZ data is
present (the `doc.mrzData` guard is inside `validateMRZConsistency`,
which returns `[]` without it, exactly as in the source). -/
def validateDocument (now : CalDate) (doc : ExtractedDocument) : List ValidationCheck :=
  docNumberCheckBlock doc ++
  expiryCheckBlock now doc ++
  dobCheckBlock now doc ++
  nameCheckBlock doc ++
  nationalityCheckBlock doc ++
  validateMRZConsistency doc

/-! ## Eligibility engine (`src/unnamed/part_002` lines 173-239) -/

/-- The ordered issue accumulation of `checkEligibility`.  As in the
validator, `parseISO` never throws, comparisons against `NaN` are
false, and the two `catch` arms (`'Cannot verify passport validity
period'`, `'Cannot verify age requirements'`) are unreachable.  The JS
guards `policy.minAge && ...` / `policy.maxAge && ...` are falsy for an
absent *or zero* bound. -/
def eligibilityIssues (now : CalDate) (doc : ExtractedDocument)
    (applicant : ApplicantData) (policy : EligibilityPolicy) : List String :=
  (if doc.expiryDate.value ≠ "" then
     let monthsValid := differenceInMonths (parseISO doc.expiryDate.value) now
     if jsLtNum monthsValid policy.minPassportValidity then
       ["Passport must be valid for at least " ++ toString policy.minPassportValidity
          ++ " months"]
     else []
   else []) ++
  (match policy.allowedNationalities with
   | some allowed =>
     if allowed ≠ [] ∧ ¬ allowed.contains doc.nationality.value then
       ["Nationality " ++ doc.nationality.value ++ " is not eligible for "
          ++ applicant.visaType]
     else []
   | none => []) ++
  (match policy.blockedNationalities with
   | some blocked =>
     if blocked.contains doc.nationality.value then
       ["Nationality " ++ doc.nationality.value ++ " is not eligible for "
          ++ applicant.visaType]
     else []
   | none => []) ++
  (if doc.dateOfBirth.value ≠ "" then
     let age := differenceInYears now (parseISO doc.dateOfBirth.value)
     (match policy.minAge with
      | some minAge =>
        if minAge ≠ 0 ∧ jsLtNum age minAge then
          ["Applicant must be at least " ++ toString minAge ++ " years old"]
        else []
      | none => []) ++
     (match policy.maxAge with
      | some maxAge =>
        if maxAge ≠ 0 ∧ jsGtNum age maxAge then
          ["Applicant must be under " ++ toString maxAge ++ " years old"]
        else []
      | none => [])
   else []) ++
  (if applicant.passportNumber ≠ "" ∧ doc.documentNumber.value ≠ "" then
     if applicant.passportNumber ≠ doc.documentNumber.value then
       ["Passport number does not match application"]
     else []
   else [])

/-- `checkEligibility` (part_002 lines 173-239): result assembly from
the accumulated issues. -/
def checkEligibility (now : CalDate) (doc : ExtractedDocument)
    (applicant : ApplicantData) (policy : EligibilityPolicy) : EligibilityResult :=
  let issues := eligibilityIssues now doc applicant policy
  let eligible := issues.isEmpty
  { eligible := eligible
    reason := if eligible then "All eligibility requirements met"
              else String.intercalate "; " issues
    confidence := if eligible then 95 else 85 }

/-! ## Recommendation generator (`src/unnamed/part_002` lines 276-318) -/

def generateRecommendations (validationChecks : List ValidationCheck)
    (eligibility : EligibilityResult) (overallConfidence : Int) : List String :=
  let failures := validationChecks.filter (fun c => c.status == CheckStatus.fail)
  let warnings := validationChecks.filter (fun c => c.status == CheckStatus.warning)
  if failures ≠ [] then
    "REJECT: Critical validation failures detected" ::
      failures.map (fun f => "- Address " ++ f.field ++ ": " ++ f.message)
  else if eligibility.eligible = false then
    ["REJECT: Applicant does not meet eligibility requirements",
     "- " ++ eligibility.reason]
  else if overallConfidence < 70 then
    ["MANUAL REVIEW: Low confidence in document extraction",
     "- Request higher quality document scan",
     "- Verify extracted information manually"]
  else if warnings ≠ [] then
    "MANUAL REVIEW: Warnings detected" ::
      warnings.map (fun w => "- Review " ++ w.field ++ ": " ++ w.message)
  else if 90 ≤ overallConfidence then
    ["APPROVE: All checks passed with high confidence",
     "- Proceed with visa application processing"]
  else
    ["MANUAL REVIEW: Standard verification recommended",
     "- Verify key details before approval"]

/-! ## Field merge of `src/lib/document-analyzer.ts` (lines 14-55)

The OCR call and the regex pattern tables are collaborators outside the
core; their per-field results are abstracted as a record of fallback
`ExtractedField`s.  The merge itself is the JS expression
`mrzData?.field || fallback`: when `mrzData` is present the MRZ field
object is always truthy (even with an empty `value`), so the fallback
is never consulted. -/

structure FallbackFields where
  documentType : ExtractedField
  documentNumber : ExtractedField
  issuingCountry : ExtractedField
  firstName : ExtractedField
  lastName : ExtractedField
  dateOfBirth : ExtractedField
  nationality : ExtractedField
  sex : ExtractedField
  issueDate : ExtractedField
  expiryDate : ExtractedField
  placeOfBirth : ExtractedField
deriving DecidableEq, Repr

/-- JS `mrzField || fallback` where `mrzField` is an object or
`undefined`: an object is truthy regardless of its contents. -/
def jsOrField (mrzField : Option ExtractedField) (fallback : ExtractedField) :
    ExtractedField :=
  match mrzField with
  | some f => f
  | none => fallback

/-- The `ExtractedDocument` assembly of `analyzeDocument`
(document-analyzer.ts lines 14-55); `issueDate` and `placeOfBirth` have
no MRZ source and always come from the fallback extractor. -/
def analyzeDocument (mrzData : Option MRZData) (fb : FallbackFields) :
    ExtractedDocument :=
  { documentType := jsOrField (mrzData.map (fun m => m.documentType)) fb.documentType
    documentNumber := jsOrField (mrzData.map (fun m => m.documentNumber)) fb.documentNumber
    issuingCountry := jsOrField (mrzData.map (fun m => m.issuingCountry)) fb.issuingCountry
    firstName := jsOrField (mrzData.map (fun m => m.firstName)) fb.firstName
    lastName := jsOrField (mrzData.map (fun m => m.lastName)) fb.lastName
    dateOfBirth := jsOrField (mrzData.map (fun m => m.dateOfBirth)) fb.dateOfBirth
    nationality := jsOrField (mrzData.map (fun m => m.nationality)) fb.nationality
    sex := jsOrField (mrzData.map (fun m => m.sex)) fb.sex
    issueDate := fb.issueDate
    expiryDate := jsOrField (mrzData.map (fun m => m.expiryDate)) fb.expiryDate
    placeOfBirth := some fb.placeOfBirth
    mrzData := mrzData }

/-! ## Spec-side restatement of the check-digit weighting (claim C2)

The claim describes the weight at position `i` as `[7,3,1][i mod 3]`
written out by cases; `checkDigit_spec` relates the source's list
lookup to this case form. -/

def checkDigitSpecValue (c : Char) : Int :=
  if c = '<' then 0
  else if c.isDigit then (c.toNat : Int) - 48
  else (c.toNat : Int) - 55

def checkDigitSpecWeight (i : Nat) : Int :=
  if i % 3 = 0 then 7 else if i % 3 = 1 then 3 else 1

/-! ## Concrete instances used by counterexamples and witnesses -/

/-- A line of 44 filler letters (a well-formed TD3 line length). -/
def a44 : String := String.mk (List.replicate 44 'A')

/-- A line of 30 filler letters (a well-formed TD1 first-line length). -/
def a30 : String := String.mk (List.replicate 30 'A')

/-- A TD3 first line whose name zone is `SMITH` with no `<<`-separated
given-names segment: `P<UTOSMITH` padded with `<` to 44 characters. -/
def td3L1 : String :=
  String.mk (['P', '<', 'U', 'T', 'O', 'S', 'M', 'I', 'T', 'H'] ++ List.replicate 34 '<')

/-- A TD3 second line of pure filler (checksums fail, so confidence 70). -/
def td3L2 : String := String.mk (List.replicate 44 '<')

def emptyField : ExtractedField := { value := "", confidence := 0 }

/-- A document whose only populated field is an expiry date that
`parseISO` cannot parse (`DD/MM/YYYY` shape). -/
def c4Doc : ExtractedDocument :=
  { documentType := emptyField, documentNumber := emptyField, issuingCountry := emptyField,
    firstName := emptyField, lastName := emptyField, dateOfBirth := emptyField,
    nationality := emptyField, sex := emptyField, issueDate := emptyField,
    expiryDate := { value := "31/12/2030", confidence := 75 },
    placeOfBirth := none, mrzData := none }

/-- A document whose only populated field is an unparseable date of birth. -/
def c9Doc : ExtractedDocument :=
  { documentType := emptyField, documentNumber := emptyField, issuingCountry := emptyField,
    firstName := emptyField, lastName := emptyField,
    dateOfBirth := { value := "not-a-date", confidence := 75 },
    nationality := emptyField, sex := emptyField, issueDate := emptyField,
    expiryDate := emptyField, placeOfBirth := none, mrzData := none }

def c9App : ApplicantData :=
  { name := "A", dateOfBirth := "", passportNumber := "", nationality := "",
    visaType := "tourist" }

def c9Pol : EligibilityPolicy :=
  { minPassportValidity := 6, allowedNationalities := none, blockedNationalities := none,
    minAge := some 18, maxAge := none, requireBiometric := none }

/-- The blocked-nationality scenario of claim C6: nationality `XXX`,
expiry 12 months after the evaluation date `2025-01-15`. -/
def c6Doc : ExtractedDocument :=
  { documentType := emptyField, documentNumber := emptyField, issuingCountry := emptyField,
    firstName := emptyField, lastName := emptyField, dateOfBirth := emptyField,
    nationality := { value := "XXX", confidence := 95 }, sex := emptyField,
    issueDate := emptyField, expiryDate := { value := "2026-01-15", confidence := 95 },
    placeOfBirth := none, mrzData := none }

def c6App : ApplicantData :=
  { name := "A", dateOfBirth := "", passportNumber := "", nationality := "XXX",
    visaType := "tourist" }

def c6Pol : EligibilityPolicy :=
  { minPassportValidity := 6, allowedNationalities := none,
    blockedNationalities := some ["XXX"], minAge := none, maxAge := none,
    requireBiometric := none }

def c7Checks : List ValidationCheck :=
  [{ field := "expiryDate", status := .fail, message := "Document has expired",
     confidence := 50 }]

def c7Elig : EligibilityResult :=
  { eligible := true, reason := "All eligibility requirements met", confidence := 95 }

/-- A fully-populated MRZ record for the validation-order witness. -/
def c5Mrz : MRZData :=
  { documentType := { value := "P", confidence := 95 },
    issuingCountry := { value := "UTO", confidence := 95 },
    lastName := { value := "SMITH", confidence := 95 },
    firstName := { value := "JOHN", confidence := 95 },
    documentNumber := { value := "AB1234567", confidence := 95 },
    nationality := { value := "UTO", confidence := 95 },
    dateOfBirth := { value := "1990-05-05", confidence := 95 },
    sex := { value := "M", confidence := 95 },
    expiryDate := { value := "2030-01-01", confidence := 95 },
    personalNumber := { value := "", confidence := 0 },
    checksumValid := true }

/-- A fully-populated document embedding `c5Mrz`. -/
def c5Doc : ExtractedDocument :=
  { documentType := { value := "P", confidence := 95 },
    documentNumber := { value := "AB1234567", confidence := 95 },
    issuingCountry := { value := "UTO", confidence := 95 },
    firstName := { value := "JOHN", confidence := 95 },
    lastName := { value := "SMITH", confidence := 95 },
    dateOfBirth := { value := "1990-05-05", confidence := 95 },
    nationality := { value := "UTO", confidence := 95 },
    sex := { value := "M", confidence := 95 },
    issueDate := { value := "2020-01-01", confidence := 95 },
    expiryDate := { value := "2030-01-01", confidence := 95 },
    placeOfBirth := none, mrzData := some c5Mrz }

/-- An MRZ record for the merge witness (document number populated, last
name empty so only the checksum and document-number checks are emitted). -/
def c10Mrz : MRZData :=
  { documentType := { value := "ID", confidence := 95 },
    issuingCountry := { value := "UTO", confidence := 95 },
    lastName := { value := "", confidence := 95 },
    firstName := { value := "", confidence := 95 },
    documentNumber := { value := "X1234567", confidence := 95 },
    nationality := { value := "UTO", confidence := 95 },
    dateOfBirth := { value := "1990-05-05", confidence := 95 },
    sex := { value := "F", confidence := 95 },
    expiryDate := { value := "2030-01-01", confidence := 95 },
    personalNumber := { value := "", confidence := 0 },
    checksumValid := true }

/-- Fallback-extractor output that differs from `c10Mrz` everywhere, to
show the merge never consults it when MRZ data is present. -/
def c10Fb : FallbackFields :=
  { documentType := { value := "P", confidence := 75 },
    documentNumber := { value := "OTHER999", confidence := 75 },
    issuingCountry := { value := "ZZZ", confidence := 75 },
    firstName := { value := "OTHERFIRST", confidence := 75 },
    lastName := { value := "OTHERLAST", confidence := 75 },
    dateOfBirth := { value := "1980-01-01", confidence := 75 },
    nationality := { value := "ZZZ", confidence := 75 },
    sex := { value := "M", confidence := 75 },
    issueDate := { value := "2019-01-01", confidence := 75 },
    expiryDate := { value := "2029-01-01", confidence := 75 },
    placeOfBirth := { value := "NOWHERE", confidence := 75 } }

/-! ## Helper lemmas -/

lemma drop_len_append {α : Type} (l t : List α) : (l ++ t).drop l.length = t := by
  induction l with
  | nil => rfl
  | cons x xs ih => exact ih

lemma conf_if_ne (b : Bool) : (if b = true then (95 : Int) else 70) ≠ 0 := by
  cases b <;> decide

lemma checkDigit_term (p : Nat × Char) :
    (if p.2 = '<' then (0 : Int)
     else if p.2.isDigit = true then ((p.2.toNat : Int) - 48)
     else ((p.2.toNat : Int) - 55)) * (([7, 3, 1] : List Int).getD (p.1 % 3) 0) =
      (if p.2 = '<' then (0 : Int)
       else if p.2.isDigit = true then ((p.2.toNat : Int) - 48)
       else ((p.2.toNat : Int) - 55)) *
        (if p.1 % 3 = 0 then 7 else if p.1 % 3 = 1 then 3 else 1) := by
  have h3 : p.1 % 3 = 0 ∨ p.1 % 3 = 1 ∨ p.1 % 3 = 2 := by omega
  rcases h3 with h | h | h <;> simp [h]

lemma head_drop_last3 {α : Type} (x a b c : α) (p q r s : List α) :
    (x :: (p ++ (q ++ (r ++ (s ++ [a, b, c]))))).head? = some x ∧
    (x :: (p ++ (q ++ (r ++ (s ++ [a, b, c]))))).drop
      ((x :: (p ++ (q ++ (r ++ (s ++ [a, b, c]))))).length - 3) = [a, b, c] := by
  constructor
  · rfl
  · have h2 : x :: (p ++ (q ++ (r ++ (s ++ [a, b, c]))))
        = (x :: (p ++ (q ++ (r ++ s)))) ++ [a, b, c] := by
      simp [List.append_assoc]
    rw [h2]
    have h3 : ((x :: (p ++ (q ++ (r ++ s)))) ++ [a, b, c]).length - 3
        = (x :: (p ++ (q ++ (r ++ s)))).length := by
      simp only [List.length_append, List.length_cons, List.length_nil]
      omega
    rw [h3, drop_len_append]

/-! ## Claim C1 — MRZ layout selection -/

/-- Claim C1, counterexample: the claim says any shape other than
exactly 2 lines of length 44 or 3 lines with a 30-character first line
yields no MRZ record, but three lines of length 44 decode (the TD3
branch tests only the first two lines' lengths, never the line count). -/
theorem parseMRZ_claim_counterexample :
    [a44, a44, a44].length = 3 ∧ a44.length = 44 ∧
    (parseMRZ [a44, a44, a44]).isSome = true := by
  decide

/-- Claim C1, amended: `parseMRZ` selects the TD3 layout exactly when
the input has at least two lines and the first two both have length 44
(extra lines are ignored); otherwise it selects TD1 exactly when the
input is exactly 3 lines whose first has length 30; every other shape
yields `none`, never an error. -/
theorem parseMRZ_layout_selection :
    (∀ (l1 l2 : String) (rest : List String), l1.length = 44 → l2.length = 44 →
        parseMRZ (l1 :: l2 :: rest) = some (parseTD3 l1 l2)) ∧
    (∀ l1 l2 l3 : String, l1.length = 30 →
        parseMRZ [l1, l2, l3] = some (parseTD1 l1 l2 l3)) ∧
    (∀ lines : List String,
        (∀ l1 l2 rest, lines = l1 :: l2 :: rest → ¬(l1.length = 44 ∧ l2.length = 44)) →
        (∀ l1 l2 l3, lines = [l1, l2, l3] → l1.length ≠ 30) →
        parseMRZ lines = none) := by
  refine ⟨?_, ?_, ?_⟩
  · intro l1 l2 rest h1 h2
    simp [parseMRZ, h1, h2]
  · intro l1 l2 l3 h30
    simp [parseMRZ, h30]
  · intro lines hA hB
    match lines with
    | [] => rfl
    | [x] => rfl
    | l1 :: l2 :: rest =>
      have h44 := hA l1 l2 rest rfl
      match rest with
      | [] =>
        simp [parseMRZ, h44]
      | [l3] =>
        have h30 := hB l1 l2 l3 rfl
        simp [parseMRZ, h44, h30]
      | x :: y :: rs =>
        simp [parseMRZ, h44]

/-- Witness for `parseMRZ_layout_selection` at concrete inputs: a 2-line
44-character input takes the TD3 path, a 3-line input with a
30-character first line takes the TD1 path, and a single short line
yields `none`. -/
theorem parseMRZ_layout_selection_w :
    parseMRZ [a44, a44] = some (parseTD3 a44 a44) ∧
    parseMRZ [a30, a44, a44] = some (parseTD1 a30 a44 a44) ∧
    parseMRZ ["AB"] = none := by
  refine ⟨parseMRZ_layout_selection.1 a44 a44 [] (by decide) (by decide),
          parseMRZ_layout_selection.2.1 a30 a44 a44 (by decide),
          parseMRZ_layout_selection.2.2 ["AB"] ?_ ?_⟩
  · intro l1 l2 rest h
    simp at h
  · intro l1 l2 l3 h
    simp at h

/-! ## Claim C2 — check-digit algorithm -/

/-- Claim C2: the check digit weights each character value (`<` is 0, a
digit its value, a letter its code minus 55) by `[7,3,1]` at position
`i mod 3` and takes the sum mod 10; for data `"123456789"` this yields
7, so validation succeeds against `"7"` and fails against every other
digit. -/
theorem checkDigit_spec (s : String) (c : Char)
    (hc : c ∈ ['0', '1', '2', '3', '4', '5', '6', '7', '8', '9']) (h7 : c ≠ '7') :
    calculateCheckDigit s =
      Int.tmod ((s.toList.enum.map
        (fun p => checkDigitSpecValue p.2 * checkDigitSpecWeight p.1)).sum) 10 ∧
    calculateCheckDigit "123456789" = 7 ∧
    validateCheckDigit "123456789" "7" = true ∧
    validateCheckDigit "123456789" (String.mk [c]) = false := by
  refine ⟨?_, by decide, by decide, ?_⟩
  · simp only [calculateCheckDigit, checkDigitSpecValue, checkDigitSpecWeight]
    simp only [checkDigit_term]
  · fin_cases hc <;> first | (exact absurd rfl h7) | decide

/-- Witness for `checkDigit_spec` at the digit `'3'`. -/
theorem checkDigit_spec_w :
    calculateCheckDigit "123456789" = 7 ∧ validateCheckDigit "123456789" "3" = false := by
  have h := checkDigit_spec "123456789" '3' (by decide) (by decide)
  exact ⟨h.2.1, h.2.2.2⟩

/-! ## Claim C3 — confidence/value invariant of the field producers -/

/-- Claim C3, counterexample: `parseTD3` emits a `firstName` field with
an empty value and confidence 70 when the name zone has no given-names
segment, so `confidence = 0` is not equivalent to an empty value. -/
theorem parseTD3_positive_confidence_empty_value :
    (parseTD3 td3L1 td3L2).firstName ∈ (parseTD3 td3L1 td3L2).fieldsList ∧
    (parseTD3 td3L1 td3L2).firstName.value = "" ∧
    (parseTD3 td3L1 td3L2).firstName.confidence = 70 := by
  decide

/-- Claim C3, amended: only one direction of the invariant holds — every
field emitted by `parseTD3`, `parseTD1` or `extractFieldFromText` with
confidence 0 has an empty value (no zero-confidence non-empty field);
fields with positive confidence and empty value do occur. -/
theorem producers_zero_confidence_empty_value (l1 l2 l3 text : String)
    (patterns : List (String → Option String)) (f : ExtractedField) :
    (f ∈ (parseTD3 l1 l2).fieldsList → f.confidence = 0 → f.value = "") ∧
    (f ∈ (parseTD1 l1 l2 l3).fieldsList → f.confidence = 0 → f.value = "") ∧
    ((extractFieldFromText text patterns).confidence = 0 →
      (extractFieldFromText text patterns).value = "") := by
  refine ⟨?_, ?_, ?_⟩
  · intro hf h0
    simp only [parseTD3, MRZData.fieldsList, List.mem_cons, List.not_mem_nil,
      or_false] at hf
    rcases hf with hf | hf | hf | hf | hf | hf | hf | hf | hf | hf <;> subst hf <;>
      simp only [ExtractedField.confidence] at h0 <;>
      first
        | exact absurd h0 (conf_if_ne _)
        | (simp only [ExtractedField.value]
           by_cases hpn : stripTrailingChevrons (jsSubstring l2 28 42) ≠ ""
           · rw [if_pos hpn] at h0
             exact absurd h0 (conf_if_ne _)
           · exact not_ne_iff.mp hpn)
  · intro hf h0
    simp only [parseTD1, MRZData.fieldsList, List.mem_cons, List.not_mem_nil,
      or_false] at hf
    rcases hf with hf | hf | hf | hf | hf | hf | hf | hf | hf | hf <;> subst hf <;>
      simp only [ExtractedField.confidence] at h0 <;>
      first
        | exact absurd h0 (conf_if_ne _)
        | rfl
  · induction patterns with
    | nil => intro _; rfl
    | cons p rest ih =>
      intro h0
      simp only [extractFieldFromText] at h0 ⊢
      rcases hp : p text with _ | g
      · simp only [hp] at h0 ⊢
        exact ih h0
      · simp only [hp] at h0 ⊢
        by_cases hg : g ≠ ""
        · rw [if_pos hg] at h0
          simp at h0
        · rw [if_neg hg] at h0
          rw [if_neg hg]
          exact ih h0

/-- Witness for `producers_zero_confidence_empty_value`: the TD1
personal-number field (confidence 0) and the empty-pattern-list
extraction both have empty values. -/
theorem producers_zero_confidence_empty_value_w :
    (parseTD1 "" "" "").personalNumber.value = "" ∧
    (extractFieldFromText "" []).value = "" :=
  ⟨(producers_zero_confidence_empty_value "" "" "" "" []
      (parseTD1 "" "" "").personalNumber).2.1 (by decide) (by decide),
   (producers_zero_confidence_empty_value "" "" "" "" [] ⟨"", 0⟩).2.2 (by decide)⟩

/-! ## Claim C4 — expiry-date validation of an unparseable date -/

/-- Claim C4, code bug: for a document whose expiry date cannot be
parsed, `validateDocument` emits a `pass` check reading `Document is
valid` with the field's own confidence — not the `fail` check with
confidence 50 the claim (and the source's dead `catch` arm) describe —
because date-fns `parseISO` returns an invalid date instead of
throwing, and `isBefore` against an invalid date is false. -/
theorem validateDocument_unparseable_expiry_passes :
    parseISO c4Doc.expiryDate.value = none ∧
    c4Doc.expiryDate.value ≠ "" ∧
    validateDocument ⟨2025, 6, 15⟩ c4Doc =
      [{ field := "expiryDate", status := .pass, message := "Document is valid",
         confidence := 75 }] := by
  decide

/-! ## Claim C5 — validation check order -/

/-- Claim C5: for a document with every field populated and MRZ data
present (with non-empty MRZ document number and last name), the check
sequence of `validateDocument` starts with the `documentNumber` check
and ends with `mrzChecksum`, `documentNumberMatch`, `nameMatch`, in
that sub-order. -/
theorem validateDocument_order (now : CalDate) (doc : ExtractedDocument) (m : MRZData)
    (hdn : doc.documentNumber.value ≠ "") (_hex : doc.expiryDate.value ≠ "")
    (_hdob : doc.dateOfBirth.value ≠ "") (_hfn : doc.firstName.value ≠ "")
    (hln : doc.lastName.value ≠ "") (_hnat : doc.nationality.value ≠ "")
    (hmrz : doc.mrzData = some m)
    (hmdn : m.documentNumber.value ≠ "") (hmln : m.lastName.value ≠ "") :
    ((validateDocument now doc).map ValidationCheck.field).head? = some "documentNumber" ∧
    ((validateDocument now doc).map ValidationCheck.field).drop
      (((validateDocument now doc).map ValidationCheck.field).length - 3) =
      ["mrzChecksum", "documentNumberMatch", "nameMatch"] := by
  have hA : (docNumberCheckBlock doc).map ValidationCheck.field = ["documentNumber"] := by
    simp [docNumberCheckBlock, hdn]
  have hF : (validateMRZConsistency doc).map ValidationCheck.field
      = ["mrzChecksum", "documentNumberMatch", "nameMatch"] := by
    simp [validateMRZConsistency, hmrz, hdn, hmdn, hln, hmln]
  simp only [validateDocument, List.map_append, hA, hF, List.append_assoc,
    List.singleton_append]
  exact head_drop_last3 "documentNumber" "mrzChecksum" "documentNumberMatch" "nameMatch"
    ((expiryCheckBlock now doc).map ValidationCheck.field)
    ((dobCheckBlock now doc).map ValidationCheck.field)
    ((nameCheckBlock doc).map ValidationCheck.field)
    ((nationalityCheckBlock doc).map ValidationCheck.field)

/-- Witness for `validateDocument_order` on a fully-populated document. -/
theorem validateDocument_order_w :
    ((validateDocument ⟨2025, 1, 1⟩ c5Doc).map ValidationCheck.field).head?
        = some "documentNumber" ∧
    ((validateDocument ⟨2025, 1, 1⟩ c5Doc).map ValidationCheck.field).drop
      (((validateDocument ⟨2025, 1, 1⟩ c5Doc).map ValidationCheck.field).length - 3) =
      ["mrzChecksum", "documentNumberMatch", "nameMatch"] :=
  validateDocument_order ⟨2025, 1, 1⟩ c5Doc c5Mrz (by decide) (by decide) (by decide)
    (by decide) (by decide) (by decide) rfl (by decide) (by decide)

/-! ## Claim C6 — eligibility result shape and blocked-nationality scenario -/

/-- Claim C6: `checkEligibility` is eligible exactly when its issue list
is empty, its reason is the issues joined with `"; "` when ineligible
and a fixed success message otherwise, and its confidence is the
constant 95 / 85 independent of the issue count; in the scenario with
`minPassportValidity = 6`, blocked nationality `XXX` and an expiry 12
months out, the result is ineligible with a reason containing
`Nationality XXX is not eligible`. -/
theorem checkEligibility_result_shape :
    (∀ (now : CalDate) (doc : ExtractedDocument) (app : ApplicantData)
        (pol : EligibilityPolicy),
        (checkEligibility now doc app pol).eligible =
          (eligibilityIssues now doc app pol).isEmpty ∧
        (checkEligibility now doc app pol).reason =
          (if (eligibilityIssues now doc app pol).isEmpty then
             "All eligibility requirements met"
           else String.intercalate "; " (eligibilityIssues now doc app pol)) ∧
        (checkEligibility now doc app pol).confidence =
          (if (checkEligibility now doc app pol).eligible = true then (95 : Int) else 85)) ∧
    (differenceInMonths (parseISO c6Doc.expiryDate.value) ⟨2025, 1, 15⟩ = some 12 ∧
     (checkEligibility ⟨2025, 1, 15⟩ c6Doc c6App c6Pol).eligible = false ∧
     jsIncludes (checkEligibility ⟨2025, 1, 15⟩ c6Doc c6App c6Pol).reason
       "Nationality XXX is not eligible" = true) := by
  constructor
  · intro now doc app pol
    exact ⟨rfl, rfl, rfl⟩
  · exact ⟨by decide, by decide, by decide⟩

/-! ## Claim C7 — recommendation short-circuit on failures -/

/-- Claim C7: whenever at least one validation check failed,
`generateRecommendations` returns exactly the critical-failure header
followed by one `- Address <field>: <message>` line per failing check —
no eligibility, low-confidence, warning or approval branch text —
regardless of the eligibility result and overall confidence. -/
theorem generateRecommendations_fail_short_circuit
    (checks : List ValidationCheck) (elig : EligibilityResult) (conf : Int)
    (h : checks.filter (fun c => c.status == CheckStatus.fail) ≠ []) :
    generateRecommendations checks elig conf =
      "REJECT: Critical validation failures detected" ::
        (checks.filter (fun c => c.status == CheckStatus.fail)).map
          (fun f => "- Address " ++ f.field ++ ": " ++ f.message) := by
  simp only [generateRecommendations]
  rw [if_pos h]

/-- Witness for `generateRecommendations_fail_short_circuit`: one failed
expiry check with an eligible applicant and high confidence still
yields the reject list. -/
theorem generateRecommendations_fail_short_circuit_w :
    generateRecommendations c7Checks c7Elig 95 =
      ["REJECT: Critical validation failures detected",
       "- Address expiryDate: Document has expired"] := by
  rw [generateRecommendations_fail_short_circuit c7Checks c7Elig 95 (by decide)]
  decide

/-! ## Claim C8 — MRZ date normalization -/

/-- Claim C8: `parseDate` maps a 6-digit `YYMMDD` string to
`YYYY-MM-DD` with full year `2000 + yy` when `yy ≤ 40` and `1900 + yy`
otherwise, and maps every string of another length to `""`. -/
theorem parseDate_century_rule :
    (∀ c0 c1 c2 c3 c4 c5 : Char,
        c0.isDigit → c1.isDigit → c2.isDigit → c3.isDigit → c4.isDigit → c5.isDigit →
        parseDate (String.mk [c0, c1, c2, c3, c4, c5]) =
          toString (if (c0.toNat - 48) * 10 + (c1.toNat - 48) ≤ 40
                    then 2000 + ((c0.toNat - 48) * 10 + (c1.toNat - 48))
                    else 1900 + ((c0.toNat - 48) * 10 + (c1.toNat - 48)))
            ++ "-" ++ String.mk [c2, c3] ++ "-" ++ String.mk [c4, c5]) ∧
    (∀ s : String, s.length ≠ 6 → parseDate s = "") := by
  constructor
  · intro c0 c1 c2 c3 c4 c5 h0 h1 h2 h3 h4 h5
    simp only [parseDate, jsSubstring, jsParseIntNat]
    simp [String.length, List.takeWhile_cons, h0, h1, String.toList]
  · intro s hs
    simp only [parseDate]
    rw [if_pos hs]

/-- Witness for `parseDate_century_rule`: `"450101"` (year above 40)
normalizes to 1945, and a 5-character string yields `""`. -/
theorem parseDate_century_rule_w :
    parseDate "450101" = "1945-01-01" ∧ parseDate "12345" = "" := by
  constructor
  · rw [show ("450101" : String) = String.mk ['4', '5', '0', '1', '0', '1'] from rfl,
        parseDate_century_rule.1 '4' '5' '0' '1' '0' '1' (by decide) (by decide)
          (by decide) (by decide) (by decide) (by decide)]
    decide
  · exact parseDate_century_rule.2 "12345" (by decide)

/-! ## Claim C9 — age bounds with an unparseable date of birth -/

/-- Claim C9, code bug: with a present but unparseable date of birth and
a configured minimum age, `checkEligibility` adds no issue at all and
reports the applicant eligible — not the generic cannot-verify issue
the claim (and the source's dead `catch` arm) describe — because the
age computed from an invalid date is `NaN` and every bound comparison
against `NaN` is false. -/
theorem checkEligibility_unparseable_dob_no_issue :
    parseISO c9Doc.dateOfBirth.value = none ∧
    c9Doc.dateOfBirth.value ≠ "" ∧
    c9Pol.minAge = some 18 ∧
    checkEligibility ⟨2025, 6, 15⟩ c9Doc c9App c9Pol =
      { eligible := true, reason := "All eligibility requirements met",
        confidence := 95 } := by
  decide

/-! ## Claim C10 — MRZ-first merge and the documentNumberMatch check -/

/-- Claim C10: when MRZ decoding succeeded, every merged field with an
MRZ source is taken from the MRZ record even when its value is empty
(the field object is always truthy, so the fallback is never
consulted); consequently the merged document number equals the MRZ one
and any emitted `documentNumberMatch` check has status `pass`. -/
theorem analyzeDocument_mrz_first (m : MRZData) (fb : FallbackFields)
    (c : ValidationCheck)
    (hc : c ∈ validateMRZConsistency (analyzeDocument (some m) fb))
    (hfield : c.field = "documentNumberMatch") :
    (analyzeDocument (some m) fb).documentType = m.documentType ∧
    (analyzeDocument (some m) fb).documentNumber = m.documentNumber ∧
    (analyzeDocument (some m) fb).issuingCountry = m.issuingCountry ∧
    (analyzeDocument (some m) fb).firstName = m.firstName ∧
    (analyzeDocument (some m) fb).lastName = m.lastName ∧
    (analyzeDocument (some m) fb).dateOfBirth = m.dateOfBirth ∧
    (analyzeDocument (some m) fb).nationality = m.nationality ∧
    (analyzeDocument (some m) fb).sex = m.sex ∧
    (analyzeDocument (some m) fb).expiryDate = m.expiryDate ∧
    c.status = CheckStatus.pass := by
  refine ⟨rfl, rfl, rfl, rfl, rfl, rfl, rfl, rfl, rfl, ?_⟩
  simp only [validateMRZConsistency, analyzeDocument, jsOrField, Option.map_some,
    List.mem_append, List.mem_cons, List.not_mem_nil, or_false] at hc
  rcases hc with (hc | hc) | hc
  · subst hc
    simp at hfield
  · split at hc
    · simp only [List.mem_cons, List.not_mem_nil, or_false] at hc
      subst hc
      simp
    · simp at hc
  · split at hc
    · simp only [List.mem_cons, List.not_mem_nil, or_false] at hc
      subst hc
      simp at hfield
    · simp at hc

/-- Witness for `analyzeDocument_mrz_first`: the concrete
`documentNumberMatch` check emitted for `c10Mrz`/`c10Fb` passes, and
the merged document number is the MRZ one. -/
theorem analyzeDocument_mrz_first_w :
    (analyzeDocument (some c10Mrz) c10Fb).documentNumber = c10Mrz.documentNumber ∧
    ({ field := "documentNumberMatch", status := CheckStatus.pass,
       message := "Document number matches MRZ", confidence := 90 } :
        ValidationCheck).status = CheckStatus.pass := by
  have h := analyzeDocument_mrz_first c10Mrz c10Fb
    { field := "documentNumberMatch", status := CheckStatus.pass,
      message := "Document number matches MRZ", confidence := 90 } (by decide) rfl
  exact ⟨h.2.1, h.2.2.2.2.2.2.2.2.2⟩
